import Mathlib

/-!
Verification of the tiled-PDF generator (`src/PDF1.py`).

The script builds, for each input image, a page tiled with scaled copies of
the image and then overlays a branded footer carrying three text fields.
Geometry is modelled over `ℚ` (the source computes with IEEE doubles; the
claims under study concern the exact arithmetic the source expresses).
Filesystem and PDF-library effects are modelled by explicit environments of
success flags, and each modelled function returns the data the script would
produce: placement rectangles, page items, chosen footer paths, boolean
results.
-/

namespace PDF1

/-- A rectangle in page units, as `fitz.Rect(x0, y0, x1, y1)`. -/
structure Rect where
  x0 : ℚ
  y0 : ℚ
  x1 : ℚ
  y1 : ℚ
deriving DecidableEq

/-- A point in page units, as `fitz.Point(x, y)`. -/
structure Pt where
  x : ℚ
  y : ℚ
deriving DecidableEq

/-- One drawing operation applied to a PDF page. -/
inductive PageItem where
  | tile (r : Rect)
  | footerImage (r : Rect)
  | text (p : Pt) (s : String) (size : ℚ) (color : ℚ × ℚ × ℚ)
  | fillRect (r : Rect) (color : ℚ × ℚ × ℚ)
  | line (a b : Pt) (color : ℚ × ℚ × ℚ) (width : ℚ)
deriving DecidableEq

/-- Helper for the termination measures of the two `while` loops below. -/
lemma ceil_sub_one_lt {a : ℚ} (ha : 0 < a) : Nat.ceil (a - 1) < Nat.ceil a := by
  have h1 : 0 < Nat.ceil a := Nat.ceil_pos.mpr ha
  have h2 : Nat.ceil (a - 1) ≤ Nat.ceil a - 1 := by
    rw [Nat.ceil_le, Nat.cast_sub h1, Nat.cast_one]
    linarith [Nat.le_ceil a]
  omega

/-- The outer tiling loop of `create_tiled_image_pdf` (line 122 of
`PDF1.py`): `while y < template_height: ... ; y += tile_height`; the result
lists the row origins `y` the loop visits.  The positivity conjunct in the
guard makes the function total; the source loop does not terminate for a
non-positive step. -/
def tileRows (H th y : ℚ) : List ℚ :=
  if h : 0 < th ∧ y < H then y :: tileRows H th (y + th) else []
termination_by Nat.ceil ((H - y) / th)
decreasing_by
  have hne : th ≠ 0 := ne_of_gt h.1
  have heq : (H - (y + th)) / th = (H - y) / th - 1 := by
    field_simp
    ring
  rw [heq]
  exact ceil_sub_one_lt (div_pos (by linarith [h.2]) h.1)

/-- The inner tiling loop (line 124): `while x + tile_width <= template_width:
... ; x += tile_width`; the result lists the column origins `x`. -/
def rowXs (W tw x : ℚ) : List ℚ :=
  if h : 0 < tw ∧ x + tw ≤ W then x :: rowXs W tw (x + tw) else []
termination_by Nat.ceil ((W - x) / tw)
decreasing_by
  have hne : tw ≠ 0 := ne_of_gt h.1
  have heq : (W - (x + tw)) / tw = (W - x) / tw - 1 := by
    field_simp
    ring
  rw [heq]
  exact ceil_sub_one_lt (div_pos (by linarith [h.1, h.2]) h.1)

/-- Line 90: `tile_width = template_width / horizontal_repeats`. -/
def tile_width (W : ℚ) (repeats : ℕ) : ℚ := W / (repeats : ℚ)

/-- Line 91: `tile_height = tile_width / (image.width / image.height)`;
the argument `r` is the source image aspect ratio `width / height`. -/
def tile_height (tw r : ℚ) : ℚ := tw / r

/-- Lines 120-132: the placement rectangles inserted by the nested loops,
row by row. -/
def tileRects (W H : ℚ) (repeats : ℕ) (r : ℚ) : List Rect :=
  (tileRows H (tile_height (tile_width W repeats) r) 0).flatMap fun y =>
    (rowXs W (tile_width W repeats) 0).map fun x =>
      ⟨x, y, x + tile_width W repeats, y + tile_height (tile_width W repeats) r⟩

/-- Closed form of the outer loop: starting at `y`, it emits `n` rows
whenever `n` steps reach `H` but `n - 1` steps do not. -/
lemma tileRows_eq_range (H th : ℚ) (hth : 0 < th) :
    ∀ (n : ℕ) (y : ℚ), H - y ≤ n * th → (n : ℚ) * th < H - y + th →
      tileRows H th y = (List.range n).map fun k : ℕ => y + (k : ℚ) * th := by
  intro n
  induction n with
  | zero =>
    intro y h1 _
    have hng : ¬ (0 < th ∧ y < H) := by
      push_neg
      intro _
      simp only [Nat.cast_zero, zero_mul] at h1
      linarith
    rw [tileRows, dif_neg hng]
    simp
  | succ n ih =>
    intro y h1 h2
    have hyH : y < H := by
      have hnn : (0 : ℚ) ≤ (n : ℚ) * th := by positivity
      push_cast at h2
      nlinarith
    rw [tileRows, dif_pos ⟨hth, hyH⟩]
    rw [ih (y + th) (by push_cast at h1 ⊢; linarith) (by push_cast at h2 ⊢; linarith)]
    rw [List.range_succ_eq_map]
    simp only [List.map_cons, List.map_map, Nat.cast_zero, zero_mul, add_zero,
      List.cons.injEq, true_and]
    apply List.map_congr_left
    intro k _
    simp only [Function.comp_apply]
    push_cast
    ring

/-- Closed form of the inner loop: starting at `x`, it emits `n` columns
whenever `n` full tiles fit in the remaining width but `n + 1` do not. -/
lemma rowXs_eq_range (W tw : ℚ) (htw : 0 < tw) :
    ∀ (n : ℕ) (x : ℚ), (n : ℚ) * tw ≤ W - x → W - x < ((n : ℚ) + 1) * tw →
      rowXs W tw x = (List.range n).map fun k : ℕ => x + (k : ℚ) * tw := by
  intro n
  induction n with
  | zero =>
    intro x _ h2
    have hng : ¬ (0 < tw ∧ x + tw ≤ W) := by
      push_neg
      intro _
      simp only [Nat.cast_zero, zero_add, one_mul] at h2
      linarith
    rw [rowXs, dif_neg hng]
    simp
  | succ n ih =>
    intro x h1 h2
    have hfit : x + tw ≤ W := by
      have hnn : (0 : ℚ) ≤ (n : ℚ) * tw := by positivity
      push_cast at h1
      nlinarith
    rw [rowXs, dif_pos ⟨htw, hfit⟩]
    rw [ih (x + tw) (by push_cast at h1 ⊢; linarith) (by push_cast at h2 ⊢; linarith)]
    rw [List.range_succ_eq_map]
    simp only [List.map_cons, List.map_map, Nat.cast_zero, zero_mul, add_zero,
      List.cons.injEq, true_and]
    apply List.map_congr_left
    intro k _
    simp only [Function.comp_apply]
    push_cast
    ring

/-- The outer loop from `y = 0` emits exactly `⌈H / th⌉₊` rows. -/
lemma tileRows_zero_eq (H th : ℚ) (hH : 0 < H) (hth : 0 < th) :
    tileRows H th 0 = (List.range (Nat.ceil (H / th))).map fun k : ℕ => (k : ℚ) * th := by
  have hth' : th ≠ 0 := ne_of_gt hth
  have h1 : H - 0 ≤ (Nat.ceil (H / th) : ℚ) * th := by
    have hle : H / th ≤ (Nat.ceil (H / th) : ℚ) := Nat.le_ceil (H / th)
    rw [sub_zero]
    calc H = H / th * th := by field_simp
    _ ≤ (Nat.ceil (H / th) : ℚ) * th := mul_le_mul_of_nonneg_right hle (le_of_lt hth)
  have h2 : ((Nat.ceil (H / th) : ℚ)) * th < H - 0 + th := by
    have hlt : ((Nat.ceil (H / th) : ℚ)) < H / th + 1 :=
      Nat.ceil_lt_add_one (le_of_lt (div_pos hH hth))
    rw [sub_zero]
    calc (Nat.ceil (H / th) : ℚ) * th < (H / th + 1) * th :=
      mul_lt_mul_of_pos_right hlt hth
    _ = H + th := by field_simp
  rw [tileRows_eq_range H th hth _ 0 h1 h2]
  simp

/-- With `tw = W / 6` the inner loop from `x = 0` emits exactly 6 columns. -/
lemma rowXs_zero_six (W : ℚ) (hW : 0 < W) :
    rowXs W (W / 6) 0 = (List.range 6).map fun k : ℕ => (k : ℚ) * (W / 6) := by
  have h := rowXs_eq_range W (W / 6) (by positivity) 6 0
    (by push_cast; linarith) (by push_cast; linarith)
  simpa using h

lemma tile_width_six (W : ℚ) : tile_width W 6 = W / 6 := by
  norm_num [tile_width]

lemma tile_height_six_pos (W r : ℚ) (hW : 0 < W) (hr : 0 < r) :
    0 < tile_height (tile_width W 6) r := by
  rw [tile_width_six, tile_height]
  positivity

/-- Claim C1: with positive template dimensions, a positive source aspect
ratio `r` and 6 horizontal repeats, the tiling computes
`tileWidth = W / 6` and `tileHeight = tileWidth / r`, emits row origins
`0, th, 2·th, …` (exactly `⌈H / th⌉₊` of them), every emitted row origin is
strictly below `H`, one further step would reach `H` (so the loop stops
only once `y ≥ H`, and the final row is emitted even when `y + th` exceeds
`H`), and every placed tile keeps the full height `th` (no clipping). -/
theorem c1_row_layout (W H r : ℚ) (hW : 0 < W) (hH : 0 < H) (hr : 0 < r) :
    tile_width W 6 = W / 6 ∧
    tile_height (tile_width W 6) r = (W / 6) / r ∧
    tileRows H (tile_height (tile_width W 6) r) 0 =
      (List.range (Nat.ceil (H / tile_height (tile_width W 6) r))).map
        (fun k : ℕ => (k : ℚ) * tile_height (tile_width W 6) r) ∧
    0 < Nat.ceil (H / tile_height (tile_width W 6) r) ∧
    (∀ y ∈ tileRows H (tile_height (tile_width W 6) r) 0, y < H) ∧
    H ≤ (Nat.ceil (H / tile_height (tile_width W 6) r) : ℚ) *
      tile_height (tile_width W 6) r ∧
    (∀ t ∈ tileRects W H 6 r, t.y1 = t.y0 + tile_height (tile_width W 6) r) := by
  have hth : 0 < tile_height (tile_width W 6) r := tile_height_six_pos W r hW hr
  have hratio : tile_height (tile_width W 6) r = W / 6 / r := by
    rw [tile_width_six]; rfl
  set th := tile_height (tile_width W 6) r with hthdef
  have hclosed := tileRows_zero_eq H th hH hth
  refine ⟨tile_width_six W, hratio, hclosed, ?_, ?_, ?_, ?_⟩
  · exact Nat.ceil_pos.mpr (div_pos hH hth)
  · intro y hy
    rw [hclosed] at hy
    simp only [List.mem_map, List.mem_range] at hy
    obtain ⟨k, hk, rfl⟩ := hy
    have hk' : (k : ℚ) < H / th := (Nat.lt_ceil).mp hk
    calc (k : ℚ) * th < H / th * th := mul_lt_mul_of_pos_right hk' hth
    _ = H := by field_simp
  · have hle : H / th ≤ (Nat.ceil (H / th) : ℚ) := Nat.le_ceil (H / th)
    calc H = H / th * th := by field_simp
    _ ≤ (Nat.ceil (H / th) : ℚ) * th := mul_le_mul_of_nonneg_right hle (le_of_lt hth)
  · intro t ht
    simp only [tileRects, List.mem_flatMap, List.mem_map, ← hthdef] at ht
    obtain ⟨y, _, x, _, rfl⟩ := ht
    rfl

/-- Instantiation of `c1_row_layout` at the unit template `W = 6`,
`H = 1`, `r = 1`, where the tile height is `1` and a single row is
emitted. -/
theorem c1_row_layout_witness :
    tileRows 1 (tile_height (tile_width 6 6) 1) 0 =
      (List.range (Nat.ceil ((1 : ℚ) / tile_height (tile_width 6 6) 1))).map
        (fun k : ℕ => (k : ℚ) * tile_height (tile_width 6 6) 1) :=
  (c1_row_layout 6 1 1 (by norm_num) (by norm_num) (by norm_num)).2.2.1

/-- Claim C2: each emitted row holds exactly 6 tiles, the widths of a row
sum to exactly `W`, every tile has width `W / 6` and width/height ratio
`r`, and no tile extends horizontally beyond `W`. -/
theorem c2_row_exactness (W H r : ℚ) (hW : 0 < W) (hH : 0 < H) (hr : 0 < r) :
    (rowXs W (tile_width W 6) 0).length = 6 ∧
    (tileRects W H 6 r).length =
      6 * (tileRows H (tile_height (tile_width W 6) r) 0).length ∧
    ((rowXs W (tile_width W 6) 0).map (fun _ => tile_width W 6)).sum = W ∧
    (∀ t ∈ tileRects W H 6 r, t.x1 - t.x0 = tile_width W 6) ∧
    (∀ t ∈ tileRects W H 6 r, (t.x1 - t.x0) / (t.y1 - t.y0) = r) ∧
    (∀ t ∈ tileRects W H 6 r, t.x1 ≤ W) := by
  have htw : tile_width W 6 = W / 6 := tile_width_six W
  have htwpos : 0 < tile_width W 6 := by rw [htw]; positivity
  have hthpos : 0 < tile_height (tile_width W 6) r := tile_height_six_pos W r hW hr
  have hxs : rowXs W (tile_width W 6) 0 =
      (List.range 6).map fun k : ℕ => (k : ℚ) * (W / 6) := by
    rw [htw]; exact rowXs_zero_six W hW
  have hlen : (rowXs W (tile_width W 6) 0).length = 6 := by
    rw [hxs]; simp
  refine ⟨hlen, ?_, ?_, ?_, ?_, ?_⟩
  · rw [tileRects, List.length_flatMap]
    have : ∀ y : ℚ, ((rowXs W (tile_width W 6) 0).map
        (fun x => (⟨x, y, x + tile_width W 6,
          y + tile_height (tile_width W 6) r⟩ : Rect))).length = 6 := by
      intro y; rw [List.length_map, hlen]
    simp only [Function.comp_def, List.length_map, hlen]
    rw [List.map_const', List.sum_replicate, smul_eq_mul, Nat.mul_comm]
  · rw [hxs]
    simp only [List.map_map]
    rw [htw]
    norm_num [List.range_succ, Function.comp_def]
    ring
  · intro t ht
    simp only [tileRects, List.mem_flatMap, List.mem_map] at ht
    obtain ⟨y, _, x, _, rfl⟩ := ht
    simp
  · intro t ht
    simp only [tileRects, List.mem_flatMap, List.mem_map] at ht
    obtain ⟨y, _, x, _, rfl⟩ := ht
    have h1 : x + tile_width W 6 - x = tile_width W 6 := by ring
    have h2 : y + tile_height (tile_width W 6) r - y =
        tile_height (tile_width W 6) r := by ring
    simp only [h1, h2]
    simp only [tile_height]
    field_simp
  · intro t ht
    simp only [tileRects, List.mem_flatMap, List.mem_map] at ht
    obtain ⟨y, _, x, hx, rfl⟩ := ht
    rw [hxs] at hx
    simp only [List.mem_map, List.mem_range] at hx
    obtain ⟨k, hk, rfl⟩ := hx
    have hk6 : ((k : ℚ) + 1) ≤ 6 := by
      have : (k : ℚ) ≤ 5 := by exact_mod_cast Nat.lt_succ_iff.mp hk
      linarith
    show (k : ℚ) * (W / 6) + tile_width W 6 ≤ W
    rw [htw]
    have : ((k : ℚ) + 1) * (W / 6) ≤ 6 * (W / 6) :=
      mul_le_mul_of_nonneg_right hk6 (by positivity)
    calc (k : ℚ) * (W / 6) + W / 6 = ((k : ℚ) + 1) * (W / 6) := by ring
    _ ≤ 6 * (W / 6) := this
    _ = W := by ring

/-- Instantiation of `c2_row_exactness` at `W = 6`, `H = 1`, `r = 1`:
the single row holds exactly 6 tiles. -/
theorem c2_row_exactness_witness : (rowXs 6 (tile_width 6 6) 0).length = 6 :=
  (c2_row_exactness 6 1 1 (by norm_num) (by norm_num) (by norm_num)).1

/-- Claim C3 (counterexample): the tile width computed for the six-foot
template is `2171.53 / 6 = 361.921666…`, which is not the claimed value
`361.92` (indeed `361.92 × 6 = 2171.52 ≠ 2171.53`). -/
theorem c3_tile_width_not_361_92 : tile_width (2171.53 : ℚ) 6 ≠ 361.92 := by
  norm_num [tile_width]

/-- Claim C3 (amended): for a 2:1 aspect ratio on the six-foot template
(2171.53 × 5285.94) with 6 horizontal repeats, the tiling computes
`tileWidth = 2171.53 / 6 = 217153/600` (which rounds to 361.92) and
`tileHeight = 217153/1200` (which rounds to 180.96), and places 30 rows of
6 tiles each: exactly 180 tile placements. -/
theorem c3_six_foot_counts :
    tile_width (2171.53 : ℚ) 6 = 217153 / 600 ∧
    tile_height (tile_width (2171.53 : ℚ) 6) 2 = 217153 / 1200 ∧
    Int.floor (tile_width (2171.53 : ℚ) 6 * 100 + 1 / 2) = 36192 ∧
    Int.floor (tile_height (tile_width (2171.53 : ℚ) 6) 2 * 100 + 1 / 2) = 18096 ∧
    (tileRows (5285.94 : ℚ) (tile_height (tile_width (2171.53 : ℚ) 6) 2) 0).length = 30 ∧
    (rowXs (2171.53 : ℚ) (tile_width (2171.53 : ℚ) 6) 0).length = 6 ∧
    (tileRects (2171.53 : ℚ) (5285.94 : ℚ) 6 2).length = 180 := by
  have hw : tile_width (2171.53 : ℚ) 6 = 217153 / 600 := by
    norm_num [tile_width]
  have hh : tile_height (tile_width (2171.53 : ℚ) 6) 2 = 217153 / 1200 := by
    rw [hw, tile_height]; norm_num
  have hrows : tileRows (5285.94 : ℚ) (tile_height (tile_width (2171.53 : ℚ) 6) 2) 0 =
      (List.range 30).map fun k : ℕ => (0 : ℚ) + (k : ℚ) * (217153 / 1200) := by
    rw [hh]
    exact tileRows_eq_range (5285.94 : ℚ) (217153 / 1200) (by norm_num) 30 0
      (by norm_num) (by norm_num)
  have hxs : rowXs (2171.53 : ℚ) (tile_width (2171.53 : ℚ) 6) 0 =
      (List.range 6).map fun k : ℕ => (0 : ℚ) + (k : ℚ) * (217153 / 600) := by
    rw [hw]
    exact rowXs_eq_range (2171.53 : ℚ) (217153 / 600) (by norm_num) 6 0
      (by norm_num) (by norm_num)
  refine ⟨hw, hh, ?_, ?_, ?_, ?_, ?_⟩
  · rw [hw, Int.floor_eq_iff]
    norm_num
  · rw [hh, Int.floor_eq_iff]
    norm_num
  · rw [hrows]; simp
  · rw [hxs]; simp
  · rw [tileRects, List.length_flatMap, hrows, hxs]
    simp only [Function.comp_def, List.length_map, List.length_range]
    rw [List.map_const', List.sum_replicate, smul_eq_mul]
    simp

/-! ### Filesystem paths and the footer fallback search -/

/-- Line 21: the fixed base folder (separators normalised to `/`). -/
def BASE_FOLDER : String := "C:/Users/john/Downloads/Folder_For_Uploader"

/-- Line 22: the template-images folder. -/
def TEMPLATE_IMAGES_FOLDER : String := BASE_FOLDER ++ "/Templateimages"

/-- Line 23: the scripts folder. -/
def SCRIPTS_FOLDER : String := BASE_FOLDER ++ "/Uptodatescripts"

/-- Line 26: the primary footer asset path. -/
def FOOTER_PATH : String := SCRIPTS_FOLDER ++ "/Footer.pdf"

/-- Lines 171-175: the fallback paths tried, in order, by
`overlay_footer_and_add_text` when its footer argument does not exist. -/
def fallback_paths : List String :=
  [TEMPLATE_IMAGES_FOLDER ++ "/Footer.pdf",
   SCRIPTS_FOLDER ++ "/Footer.pdf",
   BASE_FOLDER ++ "/Footer.pdf"]

/-- Lines 410-417: the alternate paths tried, in order, by `main` when the
primary footer path does not exist. -/
def alternate_paths : List String :=
  [TEMPLATE_IMAGES_FOLDER ++ "/Footer.pdf",
   BASE_FOLDER ++ "/Footer.pdf",
   SCRIPTS_FOLDER ++ "/footer.pdf",
   TEMPLATE_IMAGES_FOLDER ++ "/footer.pdf",
   BASE_FOLDER ++ "/footer.pdf"]

/-- Lines 407-428 of `main`: if the primary footer path is missing, take
the first existing alternate path; if none exists, keep the primary path
(the overlay step will resolve or synthesize later).  `ex` is
`os.path.exists`. -/
def mainFooterSearch (ex : String → Bool) : String :=
  if ex FOOTER_PATH then FOOTER_PATH
  else
    match alternate_paths.find? ex with
    | some p => p
    | none => FOOTER_PATH

/-- A footer PDF document: page size plus drawn content. -/
structure FooterDoc where
  width : ℚ
  height : ℚ
  items : List PageItem
deriving DecidableEq

/-- Lines 351-383, `create_simple_footer`: the synthesized placeholder
footer page — grey band, top border line, two decorative labels, the three
field captions, and the website line. -/
def create_simple_footer (width height : ℚ) : FooterDoc :=
  ⟨width, height,
   [.fillRect ⟨0, 0, width, height⟩ (0.95, 0.95, 0.95),
    .line ⟨0, 0⟩ ⟨width, 0⟩ (0.8, 0.8, 0.8) 1,
    .text ⟨50, 20⟩ "Celebrating the art of giving with love" 12 (0, 0, 0),
    .text ⟨50, 40⟩ "Aspen & Arlo Team" 12 (0, 0, 0),
    .text ⟨width / 2 - 100, 30⟩ "ASPEN & ARLO" 16 (0, 0, 0),
    .text ⟨width - 200, 20⟩ "Pattern:" 12 (0, 0, 0),
    .text ⟨width - 200, 40⟩ "Roll Width:" 12 (0, 0, 0),
    .text ⟨width - 200, 60⟩ "Roll Length:" 12 (0, 0, 0),
    .text ⟨width - 150, 80⟩ "aspenandarlo.com" 10 (0, 0, 0)]⟩

/-- The footer source the compositor ends up using: an existing file, or
the synthesized placeholder. -/
inductive FooterChoice where
  | found (p : String)
  | synthesized (doc : FooterDoc)
deriving DecidableEq

/-- Lines 167-191 of `overlay_footer_and_add_text`: if the given footer
path is missing, take the first existing path of `fallback_paths`; if none
exists, create the simple footer at the template width and the fixed
height 100. -/
def resolveFooter (ex : String → Bool) (footer_path : String)
    (template_width : ℚ) : FooterChoice :=
  if ex footer_path then .found footer_path
  else
    match fallback_paths.find? ex with
    | some p => .found p
    | none => .synthesized (create_simple_footer template_width 100)

/-- The search in `main` composed with the resolution in
`overlay_footer_and_add_text`, in the order the script runs them. -/
def pipelineFooter (ex : String → Bool) (template_width : ℚ) : FooterChoice :=
  resolveFooter ex (mainFooterSearch ex) template_width

/-- Claim C4: when the primary footer path is absent, the footer search
tries, in order, the template-images folder, the base folder, then the
lower-case filename variants, selecting the first location that exists,
and the placeholder footer is synthesized exactly when every location is
absent; in particular, when only the base-folder copy exists it is the one
selected. -/
theorem c4_footer_fallback_order (ex : String → Bool) (W : ℚ)
    (h0 : ex FOOTER_PATH = false) :
    (ex (TEMPLATE_IMAGES_FOLDER ++ "/Footer.pdf") = true →
      pipelineFooter ex W = .found (TEMPLATE_IMAGES_FOLDER ++ "/Footer.pdf")) ∧
    (ex (TEMPLATE_IMAGES_FOLDER ++ "/Footer.pdf") = false →
      ex (BASE_FOLDER ++ "/Footer.pdf") = true →
      pipelineFooter ex W = .found (BASE_FOLDER ++ "/Footer.pdf")) ∧
    (ex (TEMPLATE_IMAGES_FOLDER ++ "/Footer.pdf") = false →
      ex (BASE_FOLDER ++ "/Footer.pdf") = false →
      ex (SCRIPTS_FOLDER ++ "/footer.pdf") = true →
      pipelineFooter ex W = .found (SCRIPTS_FOLDER ++ "/footer.pdf")) ∧
    (ex (TEMPLATE_IMAGES_FOLDER ++ "/Footer.pdf") = false →
      ex (BASE_FOLDER ++ "/Footer.pdf") = false →
      ex (SCRIPTS_FOLDER ++ "/footer.pdf") = false →
      ex (TEMPLATE_IMAGES_FOLDER ++ "/footer.pdf") = true →
      pipelineFooter ex W = .found (TEMPLATE_IMAGES_FOLDER ++ "/footer.pdf")) ∧
    (ex (TEMPLATE_IMAGES_FOLDER ++ "/Footer.pdf") = false →
      ex (BASE_FOLDER ++ "/Footer.pdf") = false →
      ex (SCRIPTS_FOLDER ++ "/footer.pdf") = false →
      ex (TEMPLATE_IMAGES_FOLDER ++ "/footer.pdf") = false →
      ex (BASE_FOLDER ++ "/footer.pdf") = true →
      pipelineFooter ex W = .found (BASE_FOLDER ++ "/footer.pdf")) ∧
    (pipelineFooter ex W = .synthesized (create_simple_footer W 100) ↔
      (ex (TEMPLATE_IMAGES_FOLDER ++ "/Footer.pdf") = false ∧
       ex (BASE_FOLDER ++ "/Footer.pdf") = false ∧
       ex (SCRIPTS_FOLDER ++ "/footer.pdf") = false ∧
       ex (TEMPLATE_IMAGES_FOLDER ++ "/footer.pdf") = false ∧
       ex (BASE_FOLDER ++ "/footer.pdf") = false)) := by
  have h0' : ex (SCRIPTS_FOLDER ++ "/Footer.pdf") = false := h0
  cases h1 : ex (TEMPLATE_IMAGES_FOLDER ++ "/Footer.pdf") <;>
    cases h2 : ex (BASE_FOLDER ++ "/Footer.pdf") <;>
      cases h3 : ex (SCRIPTS_FOLDER ++ "/footer.pdf") <;>
        cases h4 : ex (TEMPLATE_IMAGES_FOLDER ++ "/footer.pdf") <;>
          cases h5 : ex (BASE_FOLDER ++ "/footer.pdf") <;>
            simp_all [pipelineFooter, mainFooterSearch, resolveFooter,
              alternate_paths, fallback_paths, List.find?, FOOTER_PATH]

/-- Scenario witness for C4: only the base-folder `Footer.pdf` exists, and
the search selects exactly that file. -/
theorem c4_footer_fallback_order_witness :
    pipelineFooter (fun p => p == BASE_FOLDER ++ "/Footer.pdf") 2171.53 =
      .found (BASE_FOLDER ++ "/Footer.pdf") :=
  ((c4_footer_fallback_order (fun p => p == BASE_FOLDER ++ "/Footer.pdf")
      2171.53 (by decide)).2.1) (by decide) (by decide)

/-! ### The footer compositor -/

/-- Leftmost non-overlapping replacement of `pat` by `rep` in a character
list, as Python's `str.replace`; the `fuel` argument (instantiated below
with the length of the scanned list, an upper bound on the number of
steps) makes the recursion structural. -/
def replaceFuel (pat rep : List Char) : ℕ → List Char → List Char
  | 0, s => s
  | _ + 1, [] => []
  | fuel + 1, c :: rest =>
    if pat ≠ [] ∧ (c :: rest).take pat.length = pat then
      rep ++ replaceFuel pat rep fuel ((c :: rest).drop pat.length)
    else
      c :: replaceFuel pat rep fuel rest

/-- Python's `s.replace(pat, rep)` for a non-empty pattern. -/
def pyReplace (s pat rep : String) : String :=
  ⟨replaceFuel pat.data rep.data s.data.length s.data⟩

/-- Success flags for one block of three `insert_text` calls: whether the
first, second and third insert succeed (a `false` flag means that call
raises). -/
structure TextFlags where
  t1 : Bool
  t2 : Bool
  t3 : Bool
deriving DecidableEq

/-- One `try` block of three `insert_text` calls (lines 245-274, repeated
at lines 278-306 with the alternate offsets): the inserts are applied in
order until one raises; returns the items actually placed on the page and
whether the block raised. -/
def stampThree (f : TextFlags) (i1 i2 i3 : PageItem) : List PageItem × Bool :=
  if f.t1 = false then ([], true)
  else if f.t2 = false then ([i1], true)
  else if f.t3 = false then ([i1, i2], true)
  else ([i1, i2, i3], false)

/-- Environment of `overlay_footer_and_add_text`: `ex` is
`os.path.exists`; the flags tell which library and filesystem calls
succeed; `pixW`, `pixH` are the pixel dimensions of the footer pixmap. -/
structure OverlayEnv where
  ex : String → Bool
  simpleFooterOk : Bool
  openOk : Bool
  basePages : ℕ
  footerPages : ℕ
  pixmapOk : Bool
  pixW : ℚ
  pixH : ℚ
  insertFooterOk : Bool
  textPrimary : TextFlags
  textAlt : TextFlags
  saveTempOk : Bool
  removeOk : Bool
  replaceOk : Bool
  outExists : Bool

/-- Line 313: the temporary output path. -/
def tempPathOf (out : String) : String := pyReplace out ".pdf" "_temp.pdf"

/-- Line 328: the `_new` fallback output path. -/
def newPathOf (out : String) : String := pyReplace out ".pdf" "_new.pdf"

/-- Lines 321-329: the path the final replace targets.  When a file
already exists at the output path and removing it fails, the output is
redirected to the `_new` path; otherwise it stays at the output path. -/
def saveTarget (env : OverlayEnv) (out : String) : String :=
  if env.ex out && !env.removeOk then newPathOf out else out

/-- Lines 311-341: save the composed document to the temporary path,
replace the (possibly redirected) target with it, and verify the file
exists: `some target` on success, `none` when the temp save or the
replace raises or the final file is missing. -/
def saveFinal (env : OverlayEnv) (out : String) : Option String :=
  if env.saveTempOk = false then none
  else if env.replaceOk = false then none
  else if env.outExists then some (saveTarget env out) else none

/-- Lines 241-243: fixed font size of the three text fields. -/
def font_size : ℚ := 14

/-- Line 243: the uniform dark grey text colour. -/
def dark_grey_color : ℚ × ℚ × ℚ := (0.2, 0.2, 0.2)

/-- Line 227: `footer_height = pixmap.height / pixmap.width *
footer_width`, with `footer_width = template_width` (line 226). -/
def footer_height (pixW pixH W : ℚ) : ℚ := pixH / pixW * W

/-- Line 187: synthesizing the simple footer may itself raise; an existing
footer file needs no synthesis. -/
def synthOk (env : OverlayEnv) : FooterChoice → Bool
  | .synthesized _ => env.simpleFooterOk
  | .found _ => true

/-- Result of the footer compositor: the boolean the function returns,
whether a file was placed at the (possibly redirected) output path, the
final path, the items added to the base page, and the footer source
used. -/
structure OverlayResult where
  ok : Bool
  wrote : Bool
  finalPath : Option String
  page : List PageItem
  usedFooter : Option FooterChoice
deriving DecidableEq

/-- The items added to the base page: the footer image at
`(0, H - footer_height, W, H)` (line 228-232) followed by the outcome of
the primary text block and, when it raised, of the alternate block
(lines 245-309). -/
def composedPage (env : OverlayEnv) (W H : ℚ)
    (pattern_name roll_width roll_length : String) : List PageItem :=
  let fh := footer_height env.pixW env.pixH W
  let prim := stampThree env.textPrimary
    (.text ⟨W - 160, H - fh + 22⟩ pattern_name font_size dark_grey_color)
    (.text ⟨W - 135, H - fh + 37⟩ roll_width font_size dark_grey_color)
    (.text ⟨W - 135, H - fh + 55⟩ roll_length font_size dark_grey_color)
  let texts :=
    if prim.2 then
      prim.1 ++ (stampThree env.textAlt
        (.text ⟨W - 160, H - 78⟩ pattern_name font_size dark_grey_color)
        (.text ⟨W - 135, H - 58⟩ roll_width font_size dark_grey_color)
        (.text ⟨W - 135, H - 38⟩ roll_length font_size dark_grey_color)).1
    else prim.1
  PageItem.footerImage ⟨0, H - fh, W, H⟩ :: texts

/-- The compositor from the footer-image insertion on (lines 231-344). -/
def overlayTail (env : OverlayEnv) (fc : FooterChoice) (out : String)
    (W H : ℚ) (pattern_name roll_width roll_length : String) : OverlayResult :=
  if env.insertFooterOk = false then ⟨false, false, none, [], some fc⟩
  else
    let page := composedPage env W H pattern_name roll_width roll_length
    match saveFinal env out with
    | some fin => ⟨true, true, some fin, page, some fc⟩
    | none => ⟨false, env.saveTempOk && env.replaceOk, none, page, some fc⟩

/-- `overlay_footer_and_add_text` (lines 157-349). -/
def overlay (env : OverlayEnv) (base_pdf footer_path out : String)
    (W H : ℚ) (pattern_name roll_width roll_length : String) : OverlayResult :=
  if env.ex base_pdf = false then ⟨false, false, none, [], none⟩
  else
    let fc := resolveFooter env.ex footer_path W
    if synthOk env fc = false then ⟨false, false, none, [], none⟩
    else if env.openOk = false then ⟨false, false, none, [], some fc⟩
    else if env.basePages = 0 then ⟨false, false, none, [], some fc⟩
    else if env.footerPages = 0 then ⟨false, false, none, [], some fc⟩
    else if env.pixmapOk = false then ⟨false, false, none, [], some fc⟩
    else overlayTail env fc out W H pattern_name roll_width roll_length

/-- The compositor's boolean result as a function of the environment
alone (the text flags play no part in it). -/
def overlayOk (env : OverlayEnv) (base_pdf footer_path out : String)
    (W : ℚ) : Bool :=
  env.ex base_pdf && synthOk env (resolveFooter env.ex footer_path W) &&
    env.openOk && (env.basePages != 0) && (env.footerPages != 0) &&
    env.pixmapOk && env.insertFooterOk && (saveFinal env out).isSome

lemma overlay_reach (env : OverlayEnv) (b fp o : String) (W H : ℚ)
    (pnm rwv rlv : String)
    (hb : env.ex b = true)
    (hs : synthOk env (resolveFooter env.ex fp W) = true)
    (ho : env.openOk = true) (hbp : env.basePages ≠ 0)
    (hfp : env.footerPages ≠ 0) (hpx : env.pixmapOk = true) :
    overlay env b fp o W H pnm rwv rlv =
      overlayTail env (resolveFooter env.ex fp W) o W H pnm rwv rlv := by
  simp [overlay, hb, hs, ho, hbp, hfp, hpx]

lemma overlayTail_page (env : OverlayEnv) (fc : FooterChoice) (o : String)
    (W H : ℚ) (pnm rwv rlv : String) (hins : env.insertFooterOk = true) :
    (overlayTail env fc o W H pnm rwv rlv).page =
      composedPage env W H pnm rwv rlv := by
  cases hsf : saveFinal env o <;> simp [overlayTail, hins, hsf]

lemma overlayTail_usedFooter (env : OverlayEnv) (fc : FooterChoice)
    (o : String) (W H : ℚ) (pnm rwv rlv : String) :
    (overlayTail env fc o W H pnm rwv rlv).usedFooter = some fc := by
  cases hins : env.insertFooterOk <;> cases hsf : saveFinal env o <;>
    simp [overlayTail, hins, hsf]

lemma overlay_ok_eq (env : OverlayEnv) (b fp o : String) (W H : ℚ)
    (pnm rwv rlv : String) :
    (overlay env b fp o W H pnm rwv rlv).ok = overlayOk env b fp o W := by
  cases hex : env.ex b <;>
    cases hs : synthOk env (resolveFooter env.ex fp W) <;>
      cases ho : env.openOk <;>
        cases hpx : env.pixmapOk <;>
          cases hins : env.insertFooterOk <;>
            cases hsf : saveFinal env o <;>
              by_cases hbp : env.basePages = 0 <;>
                by_cases hfp : env.footerPages = 0 <;>
                  simp [overlay, overlayTail, overlayOk, hex, hs, ho, hpx,
                    hins, hsf, hbp, hfp]

lemma saveFinal_some_outExists (env : OverlayEnv) (o t : String)
    (h : saveFinal env o = some t) : env.outExists = true := by
  by_cases h1 : env.saveTempOk = false
  · simp [saveFinal, h1] at h
  · by_cases h2 : env.replaceOk = false
    · simp [saveFinal, h1, h2] at h
    · by_cases h3 : env.outExists
      · exact h3
      · simp [saveFinal, h1, h2, h3] at h

/-- Claim C5 (counterexample): with no pre-existing file at the output
path and a replace call that raises, the writer returns failure (`none`)
rather than falling back to the `_new` path as the claim states. -/
theorem c5_replace_failure_counterexample :
    (⟨fun _ => false, true, true, 1, 1, true, 1, 1, true,
        ⟨true, true, true⟩, ⟨true, true, true⟩, true, true, false, true⟩ :
      OverlayEnv).replaceOk = false ∧
    saveFinal
      ⟨fun _ => false, true, true, 1, 1, true, 1, 1, true,
        ⟨true, true, true⟩, ⟨true, true, true⟩, true, true, false, true⟩
      "out.pdf" = none :=
  ⟨rfl, rfl⟩

/-- Claim C5 (amended): the writer saves to the `_temp` path and then
replaces the target; when a file already exists at the output path and
removing it fails, the output is redirected to the `_new` suffixed path;
a failure of the temp save or of the replace itself makes the writer
fail. -/
theorem c5_save_semantics (env : OverlayEnv) (out : String) :
    (env.saveTempOk = true → env.replaceOk = true → env.outExists = true →
      env.ex out = true → env.removeOk = false →
      saveFinal env out = some (newPathOf out)) ∧
    (env.saveTempOk = true → env.replaceOk = true → env.outExists = true →
      env.removeOk = true → saveFinal env out = some out) ∧
    (env.saveTempOk = true → env.replaceOk = true → env.outExists = true →
      env.ex out = false → saveFinal env out = some out) ∧
    (env.replaceOk = false → saveFinal env out = none) ∧
    (env.saveTempOk = false → saveFinal env out = none) := by
  refine ⟨?_, ?_, ?_, ?_, ?_⟩
  · intro h1 h2 h3 h4 h5
    simp [saveFinal, saveTarget, h1, h2, h3, h4, h5]
  · intro h1 h2 h3 h4
    simp [saveFinal, saveTarget, h1, h2, h3, h4]
  · intro h1 h2 h3 h4
    simp [saveFinal, saveTarget, h1, h2, h3, h4]
  · intro h1
    by_cases h2 : env.saveTempOk = false <;> simp [saveFinal, h1, h2]
  · intro h1
    simp [saveFinal, h1]

/-- Instantiation of `c5_save_semantics`: a pre-existing output file whose
removal fails redirects the final replace to the `_new` path. -/
theorem c5_save_semantics_witness :
    saveFinal
      ⟨fun _ => true, true, true, 1, 1, true, 1, 1, true,
        ⟨true, true, true⟩, ⟨true, true, true⟩, true, false, true, true⟩
      "roll.pdf" = some (newPathOf "roll.pdf") :=
  (c5_save_semantics
    ⟨fun _ => true, true, true, 1, 1, true, 1, 1, true,
      ⟨true, true, true⟩, ⟨true, true, true⟩, true, false, true, true⟩
    "roll.pdf").1 rfl rfl rfl rfl rfl

/-- Claim C7 (counterexample): an input on which stamping the three fields
at the primary offsets fails (the second insert raises) and the alternate
attempt also fails (its first insert raises), yet the emitted page is not
just the footer image: the pattern-name text placed before the primary
failure remains. -/
theorem c7_partial_text_counterexample :
    (stampThree ⟨true, false, true⟩ (.text ⟨0, 0⟩ "a" 14 (0, 0, 0))
      (.text ⟨0, 1⟩ "b" 14 (0, 0, 0)) (.text ⟨0, 2⟩ "c" 14 (0, 0, 0))).2 = true ∧
    (stampThree ⟨false, true, true⟩ (.text ⟨0, 0⟩ "a" 14 (0, 0, 0))
      (.text ⟨0, 1⟩ "b" 14 (0, 0, 0)) (.text ⟨0, 2⟩ "c" 14 (0, 0, 0))).2 = true ∧
    (overlay
      ⟨fun _ => true, true, true, 1, 1, true, 1, 1, true,
        ⟨true, false, true⟩, ⟨false, true, true⟩, true, true, true, true⟩
      "b.pdf" "f.pdf" "o.pdf" 100 200 "pat" "30" "6").page =
      [.footerImage ⟨0, 100, 100, 200⟩,
       .text ⟨-60, 122⟩ "pat" 14 (1 / 5, 1 / 5, 1 / 5)] ∧
    (overlay
      ⟨fun _ => true, true, true, 1, 1, true, 1, 1, true,
        ⟨true, false, true⟩, ⟨false, true, true⟩, true, true, true, true⟩
      "b.pdf" "f.pdf" "o.pdf" 100 200 "pat" "30" "6").page ≠
      [.footerImage ⟨0, 100, 100, 200⟩] := by
  refine ⟨rfl, rfl, ?_, ?_⟩ <;>
    simp [overlay, overlayTail, composedPage, stampThree, resolveFooter,
      synthOk, saveFinal, saveTarget, footer_height, font_size,
      dark_grey_color]
  norm_num

/-- Claim C7 (amended): when the first primary text insert fails, the
compositor retries all three fields once at the alternate fixed vertical
offsets; when the first alternate insert also fails, the page is emitted
with only the footer image; any inserts that succeeded before a failure
remain on the page; and the text flags never change the compositor's
reported result. -/
theorem c7_text_fallback (env : OverlayEnv) (b fp o : String) (W H : ℚ)
    (pnm rwv rlv : String)
    (hb : env.ex b = true)
    (hs : synthOk env (resolveFooter env.ex fp W) = true)
    (ho : env.openOk = true) (hbp : env.basePages ≠ 0)
    (hfp : env.footerPages ≠ 0) (hpx : env.pixmapOk = true)
    (hins : env.insertFooterOk = true) :
    (env.textPrimary.t1 = false → env.textAlt = ⟨true, true, true⟩ →
      (overlay env b fp o W H pnm rwv rlv).page =
        [.footerImage ⟨0, H - footer_height env.pixW env.pixH W, W, H⟩,
         .text ⟨W - 160, H - 78⟩ pnm font_size dark_grey_color,
         .text ⟨W - 135, H - 58⟩ rwv font_size dark_grey_color,
         .text ⟨W - 135, H - 38⟩ rlv font_size dark_grey_color]) ∧
    (env.textPrimary.t1 = false → env.textAlt.t1 = false →
      (overlay env b fp o W H pnm rwv rlv).page =
        [.footerImage ⟨0, H - footer_height env.pixW env.pixH W, W, H⟩]) ∧
    (∀ tp ta : TextFlags,
      (overlay { env with textPrimary := tp, textAlt := ta }
          b fp o W H pnm rwv rlv).ok =
        (overlay env b fp o W H pnm rwv rlv).ok) := by
  refine ⟨?_, ?_, ?_⟩
  · intro ht1 hta
    rw [overlay_reach env b fp o W H pnm rwv rlv hb hs ho hbp hfp hpx,
      overlayTail_page env _ o W H pnm rwv rlv hins]
    simp [composedPage, stampThree, ht1, hta]
  · intro ht1 hta1
    rw [overlay_reach env b fp o W H pnm rwv rlv hb hs ho hbp hfp hpx,
      overlayTail_page env _ o W H pnm rwv rlv hins]
    simp [composedPage, stampThree, ht1, hta1]
  · intro tp ta
    rw [overlay_ok_eq, overlay_ok_eq]
    rfl

/-- Instantiation of `c7_text_fallback`: the primary block raises on its
first insert and the alternate block places all three fields. -/
theorem c7_text_fallback_witness :
    (overlay
      ⟨fun _ => true, true, true, 1, 1, true, 1, 1, true,
        ⟨false, true, true⟩, ⟨true, true, true⟩, true, true, true, true⟩
      "b.pdf" "f.pdf" "o.pdf" 100 200 "pat" "30" "6").page =
      [.footerImage ⟨0, 200 - footer_height 1 1 100, 100, 200⟩,
       .text ⟨100 - 160, 200 - 78⟩ "pat" font_size dark_grey_color,
       .text ⟨100 - 135, 200 - 58⟩ "30" font_size dark_grey_color,
       .text ⟨100 - 135, 200 - 38⟩ "6" font_size dark_grey_color] :=
  (c7_text_fallback
    ⟨fun _ => true, true, true, 1, 1, true, 1, 1, true,
      ⟨false, true, true⟩, ⟨true, true, true⟩, true, true, true, true⟩
    "b.pdf" "f.pdf" "o.pdf" 100 200 "pat" "30" "6"
    rfl rfl rfl (by decide) (by decide) rfl rfl).1 rfl rfl

/-- Claim C8: when no footer asset exists at the given path or any
fallback location, the placeholder footer is synthesized at the fixed
height 100 whatever the template size, it is the footer source actually
used, and the emitted page still receives all three text fields. -/
theorem c8_synthetic_footer (env : OverlayEnv) (b fp o : String) (W H : ℚ)
    (pnm rwv rlv : String)
    (hb : env.ex b = true)
    (hfp0 : env.ex fp = false)
    (hfall : ∀ q ∈ fallback_paths, env.ex q = false)
    (hsimple : env.simpleFooterOk = true)
    (ho : env.openOk = true) (hbp : env.basePages ≠ 0)
    (hfpp : env.footerPages ≠ 0) (hpx : env.pixmapOk = true)
    (hins : env.insertFooterOk = true)
    (ht : env.textPrimary = ⟨true, true, true⟩) :
    resolveFooter env.ex fp W = .synthesized (create_simple_footer W 100) ∧
    (create_simple_footer W 100).height = 100 ∧
    (overlay env b fp o W H pnm rwv rlv).usedFooter =
      some (.synthesized (create_simple_footer W 100)) ∧
    (overlay env b fp o W H pnm rwv rlv).page =
      [.footerImage ⟨0, H - footer_height env.pixW env.pixH W, W, H⟩,
       .text ⟨W - 160, H - footer_height env.pixW env.pixH W + 22⟩ pnm
         font_size dark_grey_color,
       .text ⟨W - 135, H - footer_height env.pixW env.pixH W + 37⟩ rwv
         font_size dark_grey_color,
       .text ⟨W - 135, H - footer_height env.pixW env.pixH W + 55⟩ rlv
         font_size dark_grey_color] := by
  have h1 : env.ex (TEMPLATE_IMAGES_FOLDER ++ "/Footer.pdf") = false :=
    hfall _ (by simp [fallback_paths])
  have h2 : env.ex (SCRIPTS_FOLDER ++ "/Footer.pdf") = false :=
    hfall _ (by simp [fallback_paths])
  have h3 : env.ex (BASE_FOLDER ++ "/Footer.pdf") = false :=
    hfall _ (by simp [fallback_paths])
  have hres : resolveFooter env.ex fp W =
      .synthesized (create_simple_footer W 100) := by
    simp [resolveFooter, hfp0, fallback_paths, List.find?, h1, h2, h3]
  have hsynth : synthOk env (resolveFooter env.ex fp W) = true := by
    rw [hres]; exact hsimple
  refine ⟨hres, rfl, ?_, ?_⟩
  · rw [overlay_reach env b fp o W H pnm rwv rlv hb hsynth ho hbp hfpp hpx,
      overlayTail_usedFooter, hres]
  · rw [overlay_reach env b fp o W H pnm rwv rlv hb hsynth ho hbp hfpp hpx,
      overlayTail_page env _ o W H pnm rwv rlv hins]
    simp [composedPage, stampThree, ht]

/-- Instantiation of `c8_synthetic_footer`: no footer file exists anywhere
and the resolution synthesizes the height-100 placeholder. -/
theorem c8_synthetic_footer_witness :
    resolveFooter
      (OverlayEnv.ex ⟨fun p => p == "base.pdf", true, true, 1, 1, true, 1, 1,
        true, ⟨true, true, true⟩, ⟨true, true, true⟩, true, true, true, true⟩)
      "f.pdf" 2171.53 =
      .synthesized (create_simple_footer 2171.53 100) :=
  (c8_synthetic_footer
    ⟨fun p => p == "base.pdf", true, true, 1, 1, true, 1, 1, true,
      ⟨true, true, true⟩, ⟨true, true, true⟩, true, true, true, true⟩
    "base.pdf" "f.pdf" "o.pdf" 2171.53 5285.94 "pat" "30" "6"
    (by decide) (by decide) (by decide) rfl rfl (by decide) (by decide)
    rfl rfl rfl).1

/-- Claim C9: with a footer pixmap of dimensions `pixW × pixH`, the
compositor computes `footerHeight = pixH / pixW * W`, places the footer
image at `(0, H - footerHeight, W, H)`, and stamps the pattern name at
`(W-160, H-footerHeight+22)`, the roll width at `(W-135, H-footerHeight+37)`
and the roll length at `(W-135, H-footerHeight+55)`, all at 14pt in the
uniform dark grey `(0.2, 0.2, 0.2)`. -/
theorem c9_footer_geometry (env : OverlayEnv) (b fp o : String) (W H : ℚ)
    (pnm rwv rlv : String)
    (hb : env.ex b = true)
    (hs : synthOk env (resolveFooter env.ex fp W) = true)
    (ho : env.openOk = true) (hbp : env.basePages ≠ 0)
    (hfp : env.footerPages ≠ 0) (hpx : env.pixmapOk = true)
    (hins : env.insertFooterOk = true)
    (ht : env.textPrimary = ⟨true, true, true⟩) :
    footer_height env.pixW env.pixH W = env.pixH / env.pixW * W ∧
    (overlay env b fp o W H pnm rwv rlv).page =
      [.footerImage ⟨0, H - footer_height env.pixW env.pixH W, W, H⟩,
       .text ⟨W - 160, H - footer_height env.pixW env.pixH W + 22⟩ pnm
         14 (0.2, 0.2, 0.2),
       .text ⟨W - 135, H - footer_height env.pixW env.pixH W + 37⟩ rwv
         14 (0.2, 0.2, 0.2),
       .text ⟨W - 135, H - footer_height env.pixW env.pixH W + 55⟩ rlv
         14 (0.2, 0.2, 0.2)] := by
  refine ⟨rfl, ?_⟩
  rw [overlay_reach env b fp o W H pnm rwv rlv hb hs ho hbp hfp hpx,
    overlayTail_page env _ o W H pnm rwv rlv hins]
  simp [composedPage, stampThree, ht, font_size, dark_grey_color]

/-- Instantiation of `c9_footer_geometry` with a 2 × 1 footer pixmap on a
100 × 200 page. -/
theorem c9_footer_geometry_witness :
    (overlay
      ⟨fun _ => true, true, true, 1, 1, true, 2, 1, true,
        ⟨true, true, true⟩, ⟨true, true, true⟩, true, true, true, true⟩
      "b.pdf" "f.pdf" "o.pdf" 100 200 "pat" "30" "6").page =
      [.footerImage ⟨0, 200 - footer_height 2 1 100, 100, 200⟩,
       .text ⟨100 - 160, 200 - footer_height 2 1 100 + 22⟩ "pat"
         14 (0.2, 0.2, 0.2),
       .text ⟨100 - 135, 200 - footer_height 2 1 100 + 37⟩ "30"
         14 (0.2, 0.2, 0.2),
       .text ⟨100 - 135, 200 - footer_height 2 1 100 + 55⟩ "6"
         14 (0.2, 0.2, 0.2)] :=
  (c9_footer_geometry
    ⟨fun _ => true, true, true, 1, 1, true, 2, 1, true,
      ⟨true, true, true⟩, ⟨true, true, true⟩, true, true, true, true⟩
    "b.pdf" "f.pdf" "o.pdf" 100 200 "pat" "30" "6"
    rfl rfl rfl (by decide) (by decide) rfl rfl rfl).2

/-! ### The tiled-page builder -/

/-- Environment of `create_tiled_image_pdf`: `ex` is `os.path.exists`;
the flags tell which library and filesystem calls succeed; `imgW`, `imgH`
are the source image pixel dimensions. -/
structure TileEnv where
  ex : String → Bool
  imageOpens : Bool
  imgW : ℚ
  imgH : ℚ
  docCreateOk : Bool
  resizeSaveOk : Bool
  scaledExists : Bool
  docSaveOk : Bool
  outExists : Bool

/-- Result of the tiled-page builder: the returned boolean, whether the
output path was written, and the tile rectangles placed on the page. -/
structure TileResult where
  ok : Bool
  wrote : Bool
  rects : List Rect
deriving DecidableEq

/-- `create_tiled_image_pdf` (lines 54-155): validate the source image,
open it, create the page, resize and re-save the scaled copy, place the
tiles, save the output, and verify the output file exists. -/
def create_tiled_image_pdf (env : TileEnv) (out img : String)
    (template_width template_height : ℚ) (horizontal_repeats : ℕ) :
    TileResult :=
  if env.ex img = false then ⟨false, false, []⟩
  else if env.imageOpens = false then ⟨false, false, []⟩
  else if env.docCreateOk = false then ⟨false, false, []⟩
  else if env.resizeSaveOk = false then ⟨false, false, []⟩
  else if env.scaledExists = false then ⟨false, false, []⟩
  else
    let rects := tileRects template_width template_height horizontal_repeats
      (env.imgW / env.imgH)
    if env.docSaveOk = false then ⟨false, false, rects⟩
    else if env.outExists then ⟨true, true, rects⟩
    else ⟨false, true, rects⟩

lemma create_tiled_ok (env : TileEnv) (out img : String) (W H : ℚ)
    (n : ℕ) :
    (create_tiled_image_pdf env out img W H n).ok =
      (env.ex img && env.imageOpens && env.docCreateOk && env.resizeSaveOk &&
        env.scaledExists && env.docSaveOk && env.outExists) := by
  cases h1 : env.ex img <;> cases h2 : env.imageOpens <;>
    cases h3 : env.docCreateOk <;> cases h4 : env.resizeSaveOk <;>
      cases h5 : env.scaledExists <;> cases h6 : env.docSaveOk <;>
        cases h7 : env.outExists <;>
          simp [create_tiled_image_pdf, h1, h2, h3, h4, h5, h6, h7]

/-- Claim C10: both builders return `True` only when the output file
exists at the moment of return (each verifies existence before returning
`True`), and when input validation fails before composition begins — the
source image is missing or unopenable, or the base PDF is missing — they
return `False` without writing anything at the output path. -/
theorem c10_output_contract :
    (∀ (env : TileEnv) (out img : String) (W H : ℚ) (n : ℕ),
      ((create_tiled_image_pdf env out img W H n).ok = true →
        env.outExists = true) ∧
      (env.ex img = false →
        create_tiled_image_pdf env out img W H n = ⟨false, false, []⟩) ∧
      (env.imageOpens = false →
        create_tiled_image_pdf env out img W H n = ⟨false, false, []⟩)) ∧
    (∀ (env : OverlayEnv) (b fp o : String) (W H : ℚ)
        (pnm rwv rlv : String),
      ((overlay env b fp o W H pnm rwv rlv).ok = true →
        env.outExists = true) ∧
      (env.ex b = false →
        overlay env b fp o W H pnm rwv rlv = ⟨false, false, none, [], none⟩)) := by
  constructor
  · intro env out img W H n
    refine ⟨?_, ?_, ?_⟩
    · intro hok
      rw [create_tiled_ok] at hok
      simp only [Bool.and_eq_true] at hok
      exact hok.2
    · intro h
      simp [create_tiled_image_pdf, h]
    · intro h
      cases hex : env.ex img <;> simp [create_tiled_image_pdf, hex, h]
  · intro env b fp o W H pnm rwv rlv
    refine ⟨?_, ?_⟩
    · intro hok
      rw [overlay_ok_eq] at hok
      simp only [overlayOk, Bool.and_eq_true, Option.isSome_iff_exists] at hok
      obtain ⟨t, ht⟩ := hok.2
      exact saveFinal_some_outExists env o t ht
    · intro h
      simp [overlay, h]

/-- Instantiation of `c10_output_contract`: a missing source image and a
missing base PDF each yield `False` with nothing written. -/
theorem c10_output_contract_witness :
    create_tiled_image_pdf
      ⟨fun _ => false, true, 2, 1, true, true, true, true, true⟩
      "out.pdf" "img.png" 2171.53 5285.94 6 = ⟨false, false, []⟩ ∧
    overlay
      ⟨fun _ => false, true, true, 1, 1, true, 1, 1, true,
        ⟨true, true, true⟩, ⟨true, true, true⟩, true, true, true, true⟩
      "b.pdf" "f.pdf" "o.pdf" 100 200 "pat" "30" "6" =
      ⟨false, false, none, [], none⟩ :=
  ⟨(c10_output_contract.1
      ⟨fun _ => false, true, 2, 1, true, true, true, true, true⟩
      "out.pdf" "img.png" 2171.53 5285.94 6).2.1 rfl,
   (c10_output_contract.2
      ⟨fun _ => false, true, true, 1, 1, true, 1, 1, true,
        ⟨true, true, true⟩, ⟨true, true, true⟩, true, true, true, true⟩
      "b.pdf" "f.pdf" "o.pdf" 100 200 "pat" "30" "6").2 rfl⟩

/-! ### The driver -/

/-- Success flags of one retry attempt in `main`: whether the tiling call
and the overlay call return `True` (an exception inside the attempt is
caught by the `except` and counts as failure). -/
structure AttemptEnv where
  createOk : Bool
  overlayOk : Bool
deriving DecidableEq

/-- Lines 450-465 (and 475-490): run the attempts in order, stopping at
the first whose two stages both succeed. -/
def retryLoop : List AttemptEnv → Bool
  | [] => false
  | a :: rest => if a.createOk && a.overlayOk then true else retryLoop rest

/-- Per-image environment: whether the source image exists, and the
outcomes of the successive attempts for each template size. -/
structure ImageEnv where
  srcExists : Bool
  attempts6 : List AttemptEnv
  attempts15 : List AttemptEnv

/-- The outcome recorded for one input image. -/
inductive ImageResult where
  | skipped
  | done (ok6 ok15 : Bool)
deriving DecidableEq

/-- Lines 430-499: one iteration of the per-image loop.  A missing source
image is skipped with `continue`; otherwise both template sizes run their
retry loops of at most 3 attempts. -/
def processImage (e : ImageEnv) : ImageResult :=
  if e.srcExists = false then .skipped
  else .done (retryLoop (e.attempts6.take 3)) (retryLoop (e.attempts15.take 3))

/-- Lines 385-508, `main`: when directory verification fails the function
returns exit code 1; otherwise every image is processed in turn and the
function returns 0. -/
def mainRun (dirsOk : Bool) (images : List ImageEnv) : ℕ × List ImageResult :=
  if dirsOk = false then (1, [])
  else (0, images.map processImage)

/-- Claim C6: the process exits with code 0 on completion even when
individual images fail, returns 1 exactly when the setup outside the
per-image loop fails, and a failure while processing one image never
aborts the remaining ones: every image in the list is processed, each
from its own environment alone. -/
theorem c6_exit_codes (dirsOk : Bool) (images : List ImageEnv) :
    ((mainRun dirsOk images).1 = 0 ↔ dirsOk = true) ∧
    (dirsOk = true → (mainRun dirsOk images).2 = images.map processImage) ∧
    (∀ (pre post : List ImageEnv) (e : ImageEnv), dirsOk = true →
      (mainRun dirsOk (pre ++ e :: post)).2 =
        pre.map processImage ++ processImage e :: post.map processImage) := by
  cases dirsOk <;> simp [mainRun]

/-- Instantiation of `c6_exit_codes`: two images, the first failing all
its attempts, still exit with code 0 and both images processed. -/
theorem c6_exit_codes_witness :
    (mainRun true
      [⟨true, [⟨false, false⟩, ⟨false, false⟩, ⟨false, false⟩],
        [⟨false, false⟩, ⟨false, false⟩, ⟨false, false⟩]⟩,
       ⟨true, [⟨true, true⟩], [⟨true, true⟩]⟩]).1 = 0 ∧
    (mainRun true
      [⟨true, [⟨false, false⟩, ⟨false, false⟩, ⟨false, false⟩],
        [⟨false, false⟩, ⟨false, false⟩, ⟨false, false⟩]⟩,
       ⟨true, [⟨true, true⟩], [⟨true, true⟩]⟩]).2 =
      [.done false false, .done true true] :=
  ⟨(c6_exit_codes true
      [⟨true, [⟨false, false⟩, ⟨false, false⟩, ⟨false, false⟩],
        [⟨false, false⟩, ⟨false, false⟩, ⟨false, false⟩]⟩,
       ⟨true, [⟨true, true⟩], [⟨true, true⟩]⟩]).1.mpr rfl,
   by
    rw [(c6_exit_codes true
      [⟨true, [⟨false, false⟩, ⟨false, false⟩, ⟨false, false⟩],
        [⟨false, false⟩, ⟨false, false⟩, ⟨false, false⟩]⟩,
       ⟨true, [⟨true, true⟩], [⟨true, true⟩]⟩]).2.1 rfl]
    rfl⟩

end PDF1
